import Mathlib

/-!
Shallow embedding of the Connex real-time WebSocket hub
(internal/api/user/user.go, `package websocket`): message envelope,
client-side message handlers, hub dispatch loop (register / unregister /
broadcast), non-blocking mailbox sends, and the admission rate limiter.

Go maps are modelled as association lists (unique keys), channels as a
`Mailbox` structure with a capacity, a queue and a closed flag, and a Go
runtime panic (failed single-value type assertion, send on a closed
channel) as the `Except.error` branch of an `Except Unit` result.
-/

namespace Connex

/-- A decoded JSON value, as Go's `encoding/json` unmarshals into
`interface\x7b\x7d`: `null` (also an absent field), booleans, numbers,
strings, arrays, and objects (`map[string]interface\x7b\x7d`). -/
inductive JValue where
  | null : JValue
  | bool (b : Bool) : JValue
  | num (n : Int) : JValue
  | str (s : String) : JValue
  | arr (xs : List JValue) : JValue
  | obj (fields : List (String × JValue)) : JValue
  deriving Repr

/-- The wire `Message` envelope of user.go: `Type`, `Data`, `Timestamp`,
`UserID` (empty string when absent, Go's zero value), `Room` (likewise).
Timestamps are modelled as integers (`time.Time` / `Unix()` values). -/
structure Message where
  type : String
  data : JValue := .null
  timestamp : Int := 0
  userID : String := ""
  room : String := ""
  deriving Repr

/-- The mutable per-connection fields of `Client` that the handlers read
and write: its identity, the authenticated user id (empty = not
authenticated) and the current room (empty = none). -/
structure Client where
  id : Nat
  userID : String := ""
  room : String := ""
  deriving Repr, DecidableEq

/-- An effect a client-side handler performs: a direct reply enqueued to
this client (`Client.sendMessage`) or a submission to the hub's dispatch
queue (`Hub.Broadcast`). -/
inductive Effect where
  | send (m : Message) : Effect
  | broadcast (m : Message) : Effect
  deriving Repr

/-- `Client.sendError`: the error envelope it builds. -/
def errorMessage (text : String) (now : Int) : Message :=
  { type := "error", data := .obj [("error", .str text)], timestamp := now }

/-- `Client.sendPong`: the pong envelope, carrying the server timestamp. -/
def pongMessage (now : Int) : Message :=
  { type := "pong", data := .obj [("timestamp", .num now)], timestamp := now }

/-- The `system` confirmation `Client.handleAuthMessage` sends on a room
join. -/
def joinedRoomMessage (room : String) (now : Int) : Message :=
  { type := "system", data := .obj [("message", .str ("Joined room: " ++ room))],
    timestamp := now }

/-- Association-list lookup, as indexing a Go `map[string]interface\x7b\x7d`
(missing key yields `nil`, modelled `none`). -/
def lookupField : List (String × JValue) → String → Option JValue
  | [], _ => none
  | (k, v) :: rest, key => if k = key then some v else lookupField rest key

/-- `Client.handleChatMessage`: unauthenticated senders get an error reply
and nothing is forwarded; authenticated senders cause exactly one hub
submission stamped with their user id and current room. -/
def handleChatMessage (c : Client) (msg : Message) (now : Int) : List Effect :=
  if c.userID = "" then
    [.send (errorMessage "Authentication required" now)]
  else
    [.broadcast { type := "chat", data := msg.data, timestamp := now,
                  userID := c.userID, room := c.room }]

/-- `Client.handleAuthMessage`. The Go code evaluates
`msg.Data.(map[string]interface\x7b\x7d)["room"].(string)`: the outer
type assertion is single-valued, so any non-object `Data` (including an
absent one, `nil`) panics — modelled as `.error ()`. When `Data` is an
object, only a string `"room"` field has an effect: the client's room is
overwritten and a `system` confirmation is sent; otherwise nothing
happens. The hub's room registry is not touched. -/
def handleAuthMessage (c : Client) (msg : Message) (now : Int) :
    Except Unit (Client × List Effect) :=
  match msg.data with
  | .obj fields =>
    match lookupField fields "room" with
    | some (.str room) =>
        .ok ({ c with room := room }, [.send (joinedRoomMessage room now)])
    | _ => .ok (c, [])
  | _ => .error ()

/-- `Client.handleMessage`: dispatch on the message type; unknown types
get an error reply. -/
def handleMessage (c : Client) (msg : Message) (now : Int) :
    Except Unit (Client × List Effect) :=
  match msg.type with
  | "ping" => .ok (c, [.send (pongMessage now)])
  | "chat" => .ok (c, handleChatMessage c msg now)
  | "auth" => handleAuthMessage c msg now
  | _ => .ok (c, [.send (errorMessage "Unknown message type" now)])

/-- One inbound frame as the read loop sees it: either it fails
`json.Unmarshal` or it decodes to a `Message`. -/
inductive Frame where
  | undecodable : Frame
  | decoded (msg : Message) : Frame
  deriving Repr

/-- One iteration of `Client.readPump`'s body after a successful socket
read: decode failures get an error reply and the loop continues; decoded
messages go to `handleMessage`. An `.ok` result means the loop continues
reading; `.error` is a Go panic. -/
def processFrame (c : Client) (f : Frame) (now : Int) :
    Except Unit (Client × List Effect) :=
  match f with
  | .undecodable => .ok (c, [.send (errorMessage "Invalid message format" now)])
  | .decoded msg => handleMessage c msg now

/-- Direct-reply messages of an effect list. -/
def sendsOf : List Effect → List Message
  | [] => []
  | .send m :: rest => m :: sendsOf rest
  | .broadcast _ :: rest => sendsOf rest

/-- Hub submissions of an effect list. -/
def broadcastsOf : List Effect → List Message
  | [] => []
  | .send _ :: rest => broadcastsOf rest
  | .broadcast m :: rest => m :: broadcastsOf rest

/-! ## Hub state and the dispatch loop `Hub.run` -/

/-- The registry state owned by the hub loop: the global connection set
(`h.clients`, a set of client ids), the room registry (`h.rooms`, an
association list from room name to member set, present keys only), and —
as a ghost of channel state — the set of client ids whose `Send` channel
has been closed. -/
structure HubState where
  clients : List Nat
  rooms : List (String × List Nat)
  closed : List Nat
  deriving Repr, DecidableEq

/-- The empty hub state `NewHandler` starts from. -/
def initialHub : HubState := { clients := [], rooms := [], closed := [] }

/-- Room-registry lookup: `h.rooms[r]` when present. -/
def findRoom : List (String × List Nat) → String → Option (List Nat)
  | [], _ => none
  | (name, ms) :: rest, r => if name = r then some ms else findRoom rest r

/-- `h.rooms[room][client] = true`, creating the room entry when absent
(`if h.rooms[room] == nil`). Map-set insertion is idempotent. -/
def addToRoom (rooms : List (String × List Nat)) (r : String) (c : Nat) :
    List (String × List Nat) :=
  match rooms with
  | [] => [(r, [c])]
  | (name, ms) :: rest =>
    if name = r then (name, if ms.contains c then ms else ms ++ [c]) :: rest
    else (name, ms) :: addToRoom rest r c

/-- `delete(h.rooms[r], c)` followed by deleting the room entry when it
becomes empty. A missing room entry is a no-op (deleting from a `nil`
map, then deleting an absent key). -/
def removeFromRoom (rooms : List (String × List Nat)) (r : String) (c : Nat) :
    List (String × List Nat) :=
  match rooms with
  | [] => []
  | (name, ms) :: rest =>
    if name = r then
      let ms' := ms.filter (fun x => x != c)
      if ms'.isEmpty then rest else (name, ms') :: rest
    else (name, ms) :: removeFromRoom rest r c

/-- The `register` case of `Hub.run`: add the client to the global set;
when its `Room` field is non-empty, add it to that room's member set. -/
def register (c : Nat) (room : String) (s : HubState) : HubState :=
  { s with
    clients := if s.clients.contains c then s.clients else s.clients ++ [c],
    rooms := if room = "" then s.rooms else addToRoom s.rooms room c }

/-- The `unregister` case of `Hub.run`: when the client is in the global
set, remove it, close its `Send` channel, and when its `Room` field is
non-empty remove it from that room (deleting an emptied room entry).
When the client is not in the global set, nothing at all happens. -/
def deregister (c : Nat) (room : String) (s : HubState) : HubState :=
  if s.clients.contains c then
    { clients := s.clients.filter (fun x => x != c),
      rooms := if room = "" then s.rooms else removeFromRoom s.rooms room c,
      closed := if s.closed.contains c then s.closed else s.closed ++ [c] }
  else s

/-- The per-target step of the `broadcast` case of `Hub.run`: fold over
the target member list. For each target: a send on an already-closed
channel panics (`.error`, the `select` picks the ready send case); a
full mailbox (the `default` branch) closes the channel and deletes the
client from the global set — but not from any room; otherwise the
message is enqueued (the target id is appended to the delivery list).
The room registry is never modified by a broadcast. -/
def broadcastToList (targets full : List Nat) (s : HubState)
    (delivered : List Nat) : Except Unit (HubState × List Nat) :=
  match targets with
  | [] => .ok (s, delivered)
  | c :: rest =>
    if s.closed.contains c then .error ()
    else if full.contains c then
      broadcastToList rest full
        { s with clients := s.clients.filter (fun x => x != c),
                 closed := s.closed ++ [c] }
        delivered
    else broadcastToList rest full s (delivered ++ [c])

/-- The `broadcast` case of `Hub.run`: a message with a non-empty `Room`
fans out to that room's current member set (none when the room entry is
absent); otherwise it fans out to every client in the global set. `full`
is the set of client ids whose mailbox is full at dispatch time. Returns
the new state and the list of client ids whose mailbox received the
message. -/
def broadcast (room : String) (full : List Nat) (s : HubState) :
    Except Unit (HubState × List Nat) :=
  if room = "" then broadcastToList s.clients full s []
  else broadcastToList ((findRoom s.rooms room).getD []) full s []

/-- One request on the hub's ordered queue. -/
inductive HubOp where
  | register (c : Nat) (room : String) : HubOp
  | deregister (c : Nat) (room : String) : HubOp
  | broadcast (room : String) (full : List Nat) : HubOp
  deriving Repr

/-- Run a sequence of hub requests in submission order, as the single
dispatch loop processes them. -/
def runOps : List HubOp → HubState → Except Unit HubState
  | [], s => .ok s
  | .register c room :: rest, s => runOps rest (register c room s)
  | .deregister c room :: rest, s => runOps rest (deregister c room s)
  | .broadcast room full :: rest, s =>
    match broadcast room full s with
    | .error e => .error e
    | .ok (s', _) => runOps rest s'

/-! ## Direct replies: `Client.sendMessage` -/

/-- A client's bounded outbound mailbox: the buffered `Send` channel,
with its capacity, queued frames, and closed flag. -/
structure Mailbox where
  cap : Nat
  queue : List Message := []
  isClosed : Bool := false
  deriving Repr

/-- The mailbox `HandleWebSocket` creates: `make(chan []byte, 256)`. -/
def newMailbox : Mailbox := { cap := 256 }

/-- `Client.sendMessage`: a non-blocking send on the client's own `Send`
channel. A send on a closed channel panics (`.error`). With buffer space
the message is enqueued. On a full buffer the `default` branch runs:
the channel is closed and an unregister request is submitted to the hub
(the returned flag). -/
def sendMessage (mbox : Mailbox) (msg : Message) :
    Except Unit (Mailbox × Bool) :=
  if mbox.isClosed then .error ()
  else if mbox.queue.length < mbox.cap then
    .ok ({ mbox with queue := mbox.queue ++ [msg] }, false)
  else
    .ok ({ mbox with isClosed := true }, true)

/-! ## Admission rate limiting: `Handler.checkRateLimit` and
`Handler.HandleWebSocket` -/

/-- What `h.hub.redis.Get(ctx, key).Int()` can yield: a stored counter
value, the missing-key sentinel `redis.Nil` (count 0), or any other
store error. -/
inductive RedisGet where
  | val (n : Int) : RedisGet
  | nilErr : RedisGet
  | otherErr : RedisGet
  deriving Repr, DecidableEq

/-- Outcome of `Handler.checkRateLimit`: whether admission is allowed,
whether the counter was incremented, and whether a store-failure log
line was emitted. -/
structure CheckResult where
  allowed : Bool
  incremented : Bool
  logged : Bool
  deriving Repr, DecidableEq

/-- `Handler.checkRateLimit` as a function of the counter read. Any
error other than `redis.Nil` is logged and admission is allowed without
touching the counter (fail open). `redis.Nil` leaves `count` at 0. A
count of 10 or more refuses. Otherwise the counter is incremented (with
a one-minute expiry) and admission is allowed. -/
def checkRateLimit : RedisGet → CheckResult
  | .otherErr => { allowed := true, incremented := false, logged := true }
  | .nilErr =>
    if (0 : Int) ≥ 10 then { allowed := false, incremented := false, logged := false }
    else { allowed := true, incremented := true, logged := false }
  | .val n =>
    if n ≥ 10 then { allowed := false, incremented := false, logged := false }
    else { allowed := true, incremented := true, logged := false }

/-- A healthy counter store for one client key: `none` = key absent
(reads as `redis.Nil`). -/
def getCounter : Option Int → RedisGet
  | none => .nilErr
  | some n => .val n

/-- `redis.Incr`: an absent key is created at 1. -/
def incrCounter : Option Int → Option Int
  | none => some 1
  | some n => some (n + 1)

/-- `Handler.HandleWebSocket` up to client creation, with the counter
read injected: a refused admission answers HTTP 429 and creates no
`Client`; an admitted one upgrades and creates a fresh `Client` with no
room and the given (possibly empty) authenticated user id. -/
def handleWebSocketG (g : RedisGet) (freshId : Nat) (uid : String) :
    Option Client :=
  if (checkRateLimit g).allowed then some { id := freshId, userID := uid } else none

/-- One upgrade attempt against a healthy counter store: the admission
decision, the created client if any, and the updated store. -/
def handleWebSocket (store : Option Int) (freshId : Nat) (uid : String) :
    Option Client × Option Int :=
  let r := checkRateLimit (getCounter store)
  (handleWebSocketG (getCounter store) freshId uid,
   if r.incremented then incrCounter store else store)

/-- The admission decisions of `n` successive upgrade attempts from the
same client key against a healthy store (true = admitted, a `Client` was
created; false = refused with HTTP 429). -/
def attemptResults : Nat → Option Int → List Bool
  | 0, _ => []
  | n + 1, store =>
    let r := checkRateLimit (getCounter store)
    r.allowed :: attemptResults n (if r.incremented then incrCounter store else store)

/-- The counter-store state after `n` upgrade attempts from the same
client key against a healthy store. -/
def storeAfter : Nat → Option Int → Option Int
  | 0, s => s
  | n + 1, s =>
    storeAfter n (if (checkRateLimit (getCounter s)).incremented then incrCounter s else s)

/-- The spec invariant on the room registry: every room name present
in the registry has at least one member that is a currently registered
connection. -/
def registryInvariant (s : HubState) : Prop :=
  ∀ r ms, findRoom s.rooms r = some ms →
    ∃ c, c ∈ ms ∧ s.clients.contains c = true

/-! ## Theorems about the claims -/

/-- Claim C1 (code evaluated at the failing input). Processing a valid
`auth` message with room "general" does overwrite the client's `Room`
field and does send the `system` confirmation — but the hub's room
registry is untouched: a client registered without a room (as
`HandleWebSocket` always creates them) is never added to
`Hub.rooms["general"]`, so a subsequent broadcast targeted at "general"
enqueues onto no mailbox at all, not exactly once onto this client's,
contradicting the claim. -/
theorem auth_confirms_but_never_joins_hub_registry :
    processFrame { id := 1, userID := "u" }
        (.decoded { type := "auth", data := .obj [("room", .str "general")] }) 5
      = .ok ({ id := 1, userID := "u", room := "general" },
             [.send (joinedRoomMessage "general" 5)]) ∧
    (register 1 "" initialHub).rooms = [] ∧
    broadcast "general" [] (register 1 "" initialHub)
      = .ok (register 1 "" initialHub, []) :=
  ⟨rfl, rfl, rfl⟩

/-- Claim C2 (code evaluated at the failing input). The room-registry
invariant — a room is present only if it has at least one currently
registered member — is not preserved by the hub loop: registering
client 1 into room "r" and then broadcasting to "r" while client 1's
mailbox is full reaches a state whose registry still holds room "r"
with member 1 while the global connection set is empty. -/
theorem eviction_trace_violates_room_registry_invariant :
    runOps [.register 1 "r", .broadcast "r" [1]] initialHub
      = .ok { clients := [], rooms := [("r", [1])], closed := [1] } ∧
    ¬ registryInvariant { clients := [], rooms := [("r", [1])], closed := [1] } := by
  refine ⟨rfl, fun h => ?_⟩
  obtain ⟨c, hc, hmem⟩ := h "r" [1] rfl
  rw [List.mem_singleton] at hc
  subst hc
  exact absurd hmem (by decide)

/-- Claim C3 (code evaluated at the failing input). With clients 1 and 2
both in room "r" and client 1's mailbox full, broadcasting to "r"
removes client 1 from the global connection set, closes its mailbox,
and still delivers to client 2 exactly once — but client 1 remains in
room "r"'s member set, contradicting the claimed removal from the
room's member set. -/
theorem eviction_removes_client_but_not_room_membership :
    broadcast "r" [1] (register 2 "r" (register 1 "r" initialHub))
      = .ok ({ clients := [2], rooms := [("r", [1, 2])], closed := [1] }, [2]) ∧
    findRoom [("r", [1, 2])] "r" = some [1, 2] ∧
    (1 : Nat) ∈ [1, 2] :=
  ⟨rfl, rfl, by decide⟩

/-- Claim C4 (code evaluated at the failing input). A frame that fails
JSON decoding and a frame with an unrecognized type each get an `error`
reply with the loop continuing — but an `auth` frame whose `data` is
not an object makes the single-value type assertion in
`handleAuthMessage` panic (`.error ()`), crashing the read loop instead
of replying and continuing, contradicting the claim. -/
theorem auth_non_object_data_panics_read_loop :
    processFrame { id := 1 } (.decoded { type := "auth", data := .str "x" }) 0
      = .error () ∧
    processFrame { id := 1 } .undecodable 7
      = .ok ({ id := 1 }, [.send (errorMessage "Invalid message format" 7)]) ∧
    processFrame { id := 1 } (.decoded { type := "bogus" }) 7
      = .ok ({ id := 1 }, [.send (errorMessage "Unknown message type" 7)]) :=
  ⟨rfl, rfl, rfl⟩

/-- Claim C5: a `chat` message from a connection with no authenticated
user id submits nothing to the hub and produces exactly one direct
`error` reply; from an authenticated connection it submits exactly one
`chat` message to the hub carrying the original data, the sender's user
id and the sender's current room, with no direct reply. -/
theorem chat_requires_authentication (c : Client) (msg : Message) (now : Int) :
    (c.userID = "" →
      handleChatMessage c msg now = [.send (errorMessage "Authentication required" now)] ∧
      broadcastsOf (handleChatMessage c msg now) = []) ∧
    (c.userID ≠ "" →
      sendsOf (handleChatMessage c msg now) = [] ∧
      broadcastsOf (handleChatMessage c msg now) =
        [{ type := "chat", data := msg.data, timestamp := now,
           userID := c.userID, room := c.room }]) := by
  refine ⟨fun h => ?_, fun h => ?_⟩ <;>
    simp [handleChatMessage, h, sendsOf, broadcastsOf]

/-- Witness for claim C5 at concrete inputs: an unauthenticated client
gets the error reply; an authenticated one causes the stamped hub
submission. -/
theorem chat_requires_authentication_witness :
    handleChatMessage { id := 1 } { type := "chat", data := .str "hi" } 3
        = [.send (errorMessage "Authentication required" 3)] ∧
    broadcastsOf (handleChatMessage { id := 2, userID := "u7", room := "lobby" }
        { type := "chat", data := .str "hi" } 3)
      = [{ type := "chat", data := .str "hi", timestamp := 3,
           userID := "u7", room := "lobby" }] :=
  ⟨((chat_requires_authentication { id := 1 } { type := "chat", data := .str "hi" } 3).1 rfl).1,
   ((chat_requires_authentication { id := 2, userID := "u7", room := "lobby" }
      { type := "chat", data := .str "hi" } 3).2 (by decide)).2⟩

/-- Claim C6: with the limiter at 10 per window, 11 upgrade attempts
from one client key within one window (counter key absent at the start)
see the first 10 admitted and the 11th refused; at the 11th attempt the
rate-limit check fails, no `Client` is created, and the counter stays
at 10. -/
theorem ten_admitted_eleventh_refused :
    attemptResults 11 none = List.replicate 10 true ++ [false] ∧
    storeAfter 10 none = some 10 ∧
    handleWebSocket (storeAfter 10 none) 42 "anyone" = (none, some 10) :=
  ⟨rfl, rfl, rfl⟩

/-- Claim C7: a counter-store read failing with any error other than
the missing-key sentinel makes the rate-limit check allow admission
without incrementing, emitting a log line, and the upgrade is not
refused — a `Client` is still created (fail open). -/
theorem limiter_store_error_fails_open (freshId : Nat) (uid : String) :
    checkRateLimit .otherErr
      = { allowed := true, incremented := false, logged := true } ∧
    handleWebSocketG .otherErr freshId uid = some { id := freshId, userID := uid } :=
  ⟨rfl, rfl⟩

/-- Claim C8: deregistration is idempotent — a deregister request for a
client not in the global connection set leaves the hub state (clients,
rooms, closed channels) entirely unchanged, and deregistering twice in
succession equals deregistering once. -/
theorem deregister_is_idempotent (s : HubState) (c : Nat) (room : String) :
    (s.clients.contains c = false → deregister c room s = s) ∧
    deregister c room (deregister c room s) = deregister c room s := by
  constructor
  · intro h
    have h' : c ∉ s.clients := by simpa using h
    simp [deregister, h']
  · by_cases hm : c ∈ s.clients
    · have h2 : c ∉ (deregister c room s).clients := by
        simp [deregister, hm, List.mem_filter]
      conv_lhs => rw [deregister]
      simp [h2]
    · simp [deregister, hm]

/-- Witness for claim C8 at concrete inputs: deregistering an absent
client is a no-op, and a double deregistration equals a single one. -/
theorem deregister_is_idempotent_witness :
    deregister 1 "r" { clients := [2], rooms := [("r", [2])], closed := [] }
        = { clients := [2], rooms := [("r", [2])], closed := [] } ∧
    deregister 1 "r" (deregister 1 "r"
        { clients := [1, 2], rooms := [("r", [1, 2])], closed := [] })
      = deregister 1 "r" { clients := [1, 2], rooms := [("r", [1, 2])], closed := [] } :=
  ⟨(deregister_is_idempotent _ 1 "r").1 rfl,
   (deregister_is_idempotent _ 1 "r").2⟩

/-- Claim C9: an inbound `ping`, whatever its payload and whatever the
client's authentication state, produces exactly one direct `pong` reply
carrying the server timestamp, and submits nothing to the hub's
dispatch queue. -/
theorem ping_elicits_exactly_one_pong (c : Client) (d : JValue) (ts : Int)
    (uid rm : String) (now : Int) :
    handleMessage c
        { type := "ping", data := d, timestamp := ts, userID := uid, room := rm } now
      = .ok (c, [.send (pongMessage now)]) ∧
    sendsOf [.send (pongMessage now)] = [pongMessage now] ∧
    broadcastsOf [.send (pongMessage now)] = [] ∧
    pongMessage now
      = { type := "pong", data := .obj [("timestamp", .num now)], timestamp := now } :=
  ⟨rfl, rfl, rfl, rfl⟩

/-- Claim C10: `Client.sendMessage` — the path every server-originated
direct reply (pong, error, system confirmation) goes through — finds
the mailbox open but full, closes the mailbox channel and submits a
deregistration request to the hub. -/
theorem direct_send_on_full_mailbox_evicts (mbox : Mailbox) (msg : Message)
    (hopen : mbox.isClosed = false) (hfull : mbox.cap ≤ mbox.queue.length) :
    sendMessage mbox msg = .ok ({ mbox with isClosed := true }, true) := by
  unfold sendMessage
  rw [hopen]
  rw [if_neg Bool.false_ne_true]
  rw [if_neg (Nat.not_lt.mpr hfull)]

/-- Witness for claim C10 at a concrete input: a full 256-slot mailbox
rejects the frame, is closed, and the deregistration flag is raised. -/
theorem direct_send_on_full_mailbox_evicts_witness :
    sendMessage { cap := 256, queue := List.replicate 256 (pongMessage 0) }
        (errorMessage "x" 1)
      = .ok ({ cap := 256, queue := List.replicate 256 (pongMessage 0),
               isClosed := true }, true) :=
  direct_send_on_full_mailbox_evicts _ _ rfl (by rw [List.length_replicate])

end Connex
